import Mathlib

/-!
Shallow embedding of the stellar-x402 repository: the x402 protocol wire-type
declarations (`x402-protocol-types.ts`), the facilitator HTTP client
(`facilitator-client.ts`), and the Stellar SDK convenience wrappers
(`stellar-utils` section of the same file).  Network effects (fetch, Horizon
lookups) are modelled as explicit oracles passed to the embedded functions;
JavaScript object literals that cross the wire are modelled as ordered
key/value lists, matching `JSON.stringify` field order.
-/

namespace StellarX402

/-! ## Network normalization and selection (`getHorizonClient`, `getNetworkPassphrase`) -/

/-- Whether `pat` occurs at the head of the character list. -/
def charsStartWith : List Char → List Char → Bool
  | _, [] => true
  | [], _ :: _ => false
  | c :: cs, p :: ps => c == p && charsStartWith cs ps

/-- Replace the first occurrence of `pat` in a character list by `repl`. -/
def replaceFirstChars (repl pat : List Char) : List Char → List Char
  | [] => []
  | c :: cs =>
    if charsStartWith (c :: cs) pat then repl ++ (c :: cs).drop pat.length
    else c :: replaceFirstChars repl pat cs

/-- JavaScript `String.prototype.replace` with a string pattern: replaces only
the first occurrence of `pat` in `s` by `repl`. -/
def replaceFirst (s pat repl : String) : String :=
  ⟨replaceFirstChars repl.data pat.data s.data⟩

/-- JavaScript `String.prototype.toLowerCase` (ASCII case mapping suffices for
the network identifiers this code compares against). -/
def strToLower (s : String) : String :=
  ⟨s.data.map Char.toLower⟩

/-- The network-name normalization expression that appears verbatim in both
`getHorizonClient` and `getNetworkPassphrase`:
`network.toLowerCase().replace("stellar-", "").replace("public", "mainnet")`. -/
def normalizeNetwork (network : String) : String :=
  replaceFirst (replaceFirst (strToLower network) "stellar-" "") "public" "mainnet"

/-- The configuration of the `Horizon.Server` value constructed by
`getHorizonClient` (URL plus the `allowHttp` option). -/
structure HorizonServer where
  horizonUrl : String
  allowHttp : Bool
deriving Repr, DecidableEq

/-- `getHorizonClient` from the Stellar utilities: maps a (possibly prefixed)
network name to the Horizon server it talks to, defaulting to testnet. -/
def getHorizonClient (network : String) : HorizonServer :=
  let n := normalizeNetwork network
  if n = "mainnet" then ⟨"https://horizon.stellar.org", false⟩
  else if n = "testnet" then ⟨"https://horizon-testnet.stellar.org", false⟩
  else if n = "futurenet" then ⟨"https://horizon-futurenet.stellar.org", false⟩
  else if n = "local" ∨ n = "standalone" then ⟨"http://localhost:8000", true⟩
  else ⟨"https://horizon-testnet.stellar.org", false⟩

/-- `Networks.PUBLIC` of the Stellar SDK, as recorded in the source comments. -/
def NetworksPUBLIC : String := "Public Global Stellar Network ; September 2015"

/-- `Networks.TESTNET` of the Stellar SDK, as recorded in the source comments. -/
def NetworksTESTNET : String := "Test SDF Network ; September 2015"

/-- `Networks.FUTURENET` of the Stellar SDK, as recorded in the source comments. -/
def NetworksFUTURENET : String := "Test SDF Future Network ; October 2022"

/-- `Networks.STANDALONE` of the Stellar SDK, as recorded in the source comments. -/
def NetworksSTANDALONE : String := "Standalone Network ; February 2017"

/-- `getNetworkPassphrase` from the Stellar utilities: maps a network name to
the signing passphrase, defaulting to testnet. -/
def getNetworkPassphrase (network : String) : String :=
  let n := normalizeNetwork network
  if n = "mainnet" then NetworksPUBLIC
  else if n = "testnet" then NetworksTESTNET
  else if n = "futurenet" then NetworksFUTURENET
  else if n = "local" ∨ n = "standalone" then NetworksSTANDALONE
  else NetworksTESTNET

/-! ## Protocol constants (`x402-protocol-types.ts`) -/

/-- `STELLAR_MAINNET` constant of the protocol type definitions. -/
def STELLAR_MAINNET : String := "stellar-mainnet"

/-- `STELLAR_TESTNET` constant of the protocol type definitions. -/
def STELLAR_TESTNET : String := "stellar-testnet"

/-- `STELLAR_FUTURENET` constant of the protocol type definitions. -/
def STELLAR_FUTURENET : String := "stellar-futurenet"

/-- The `NETWORK_PASSPHRASES` record of the protocol type definitions,
modelled as an association list in declaration order. -/
def NETWORK_PASSPHRASES : List (String × String) :=
  [(STELLAR_MAINNET, "Public Global Stellar Network ; September 2015"),
   (STELLAR_TESTNET, "Test SDF Network ; September 2015"),
   (STELLAR_FUTURENET, "Test SDF Future Network ; October 2022")]

/-! ## Identifying which Stellar network a URL or passphrase refers to -/

/-- The four distinct Stellar networks the utilities can select. -/
inductive StellarNet where
  | mainnet
  | testnet
  | futurenet
  | standalone
deriving Repr, DecidableEq

/-- Which Stellar network a Horizon URL chosen by `getHorizonClient` serves. -/
def netOfHorizonUrl (u : String) : Option StellarNet :=
  if u = "https://horizon.stellar.org" then some .mainnet
  else if u = "https://horizon-testnet.stellar.org" then some .testnet
  else if u = "https://horizon-futurenet.stellar.org" then some .futurenet
  else if u = "http://localhost:8000" then some .standalone
  else none

/-- Which Stellar network a signing passphrase belongs to. -/
def netOfPassphrase (p : String) : Option StellarNet :=
  if p = NetworksPUBLIC then some .mainnet
  else if p = NetworksTESTNET then some .testnet
  else if p = NetworksFUTURENET then some .futurenet
  else if p = NetworksSTANDALONE then some .standalone
  else none

/-! ## Facilitator client (`facilitator-client.ts`) -/

/-- Legacy `VerifyPaymentResponse` interface: the shape `verifyPayment`
returns (and the cast applied to the facilitator's JSON). -/
structure VerifyPaymentResponse where
  valid : Bool
  error : Option String
  message : Option String
deriving Repr, DecidableEq

/-- Legacy `SettlePaymentResponse` interface, fields in declaration order. -/
structure SettlePaymentResponse where
  settled : Bool
  transactionHash : Option String
  amount : Option String
  recipient : Option String
  network : Option String
  timestamp : Option String
  status : Option String
  error : Option String
  message : Option String
deriving Repr, DecidableEq

/-- Outcome of one `fetch` round-trip: the promise rejects (or the body fails
to parse as JSON) with an error message, or a response arrives with its `ok`
flag, HTTP status, and parsed JSON body. -/
inductive FetchOutcome (α : Type) where
  | throws (msg : String)
  | response (ok : Bool) (status : Nat) (body : α)
deriving Repr, DecidableEq

/-- Whether the fetch outcome is a failure: a rejection or a non-ok response. -/
def FetchOutcome.isFailure : FetchOutcome α → Bool
  | .throws _ => true
  | .response ok _ _ => !ok

/-- A fetch oracle: maps the request URL and the JSON body (ordered key/value
pairs, as produced by `JSON.stringify`) to the outcome of the round-trip. -/
def FetchFn (α : Type) : Type :=
  String → List (String × String) → FetchOutcome α

/-- JavaScript `a || b` for an optional string `a`: `b` when `a` is absent or
empty (falsy), otherwise `a`. -/
def jsOr (v : Option String) (dflt : String) : String :=
  match v with
  | some s => if s = "" then dflt else s
  | none => dflt

/-- The JSON body `verifyPayment` sends:
`JSON.stringify({signedTransaction, expectedRecipient, expectedAmount, expectedNetwork})`. -/
def verifyPaymentBody (signedTransaction expectedRecipient expectedAmount expectedNetwork :
    String) : List (String × String) :=
  [("signedTransaction", signedTransaction),
   ("expectedRecipient", expectedRecipient),
   ("expectedAmount", expectedAmount),
   ("expectedNetwork", expectedNetwork)]

/-- The JSON body `settlePayment` sends:
`JSON.stringify({signedTransaction, expectedNetwork})`. -/
def settlePaymentBody (signedTransaction expectedNetwork : String) :
    List (String × String) :=
  [("signedTransaction", signedTransaction),
   ("expectedNetwork", expectedNetwork)]

/-- How `verifyPayment` turns the fetch outcome into its result: a rejection
is caught and mapped to the `Network error` literal; a non-ok response is
mapped to the `Verification failed` literal; an ok response is returned as
parsed. -/
def handleVerifyResponse : FetchOutcome VerifyPaymentResponse → VerifyPaymentResponse
  | .throws msg => ⟨false, some "Network error", some msg⟩
  | .response ok status data =>
    if !ok then
      ⟨false, some (jsOr data.error "Verification failed"),
        some (jsOr data.message ("HTTP " ++ toString status))⟩
    else data

/-- How `settlePayment` turns the fetch outcome into its result. -/
def handleSettleResponse : FetchOutcome SettlePaymentResponse → SettlePaymentResponse
  | .throws msg =>
    ⟨false, none, none, none, none, none, none, some "Network error", some msg⟩
  | .response ok status data =>
    if !ok then
      ⟨false, none, none, none, none, none, none,
        some (jsOr data.error "Settlement failed"),
        some (jsOr data.message ("HTTP " ++ toString status))⟩
    else data

/-- `verifyPayment`: one POST of the legacy verify body to `facilitatorUrl`,
with every failure mapped to a `valid = false` result. -/
def verifyPayment (fetch : FetchFn VerifyPaymentResponse)
    (facilitatorUrl signedTransaction expectedRecipient expectedAmount expectedNetwork :
      String) : VerifyPaymentResponse :=
  handleVerifyResponse
    (fetch facilitatorUrl
      (verifyPaymentBody signedTransaction expectedRecipient expectedAmount expectedNetwork))

/-- `settlePayment`: one POST of the legacy settle body to `facilitatorUrl`,
with every failure mapped to a `settled = false` result. -/
def settlePayment (fetch : FetchFn SettlePaymentResponse)
    (facilitatorUrl signedTransaction expectedNetwork : String) : SettlePaymentResponse :=
  handleSettleResponse
    (fetch facilitatorUrl (settlePaymentBody signedTransaction expectedNetwork))

/-- `createPaymentResponse`: the object literal built for the
`X-Payment-Response` header, modelled as its ordered key/value pairs. -/
def createPaymentResponse (settlementResult : SettlePaymentResponse) :
    List (String × Option String) :=
  [("transactionHash", settlementResult.transactionHash),
   ("amount", settlementResult.amount),
   ("currency", some "XLM"),
   ("recipient", settlementResult.recipient),
   ("network", settlementResult.network),
   ("timestamp", settlementResult.timestamp),
   ("status", settlementResult.status)]

/-- `verifyPaymentSimple`: throws when the base URL is falsy (empty), else
delegates to `verifyPayment` with `/verify` appended. -/
def verifyPaymentSimple (fetch : FetchFn VerifyPaymentResponse)
    (facilitatorUrl signedTransaction expectedRecipient expectedAmount expectedNetwork :
      String) : Except String VerifyPaymentResponse :=
  if facilitatorUrl = "" then
    .error "Facilitator URL is required - no default available"
  else
    .ok (verifyPayment fetch (facilitatorUrl ++ "/verify") signedTransaction
      expectedRecipient expectedAmount expectedNetwork)

/-- `settlePaymentSimple`: throws when the base URL is falsy (empty), else
delegates to `settlePayment` with `/settle` appended. -/
def settlePaymentSimple (fetch : FetchFn SettlePaymentResponse)
    (facilitatorUrl signedTransaction expectedNetwork : String) :
    Except String SettlePaymentResponse :=
  if facilitatorUrl = "" then
    .error "Facilitator URL is required - no default available"
  else
    .ok (settlePayment fetch (facilitatorUrl ++ "/settle") signedTransaction expectedNetwork)

/-- Whether an embedded fallible call throws. -/
def exceptThrows : Except String α → Bool
  | .error _ => true
  | .ok _ => false

/-! ## Wire-type field names (`x402-protocol-types.ts` and the legacy interfaces) -/

/-- Field names of the official `VerifyRequest` wire type, declaration order. -/
def VerifyRequestFields : List String :=
  ["x402Version", "paymentHeader", "paymentRequirements"]

/-- Field names of the official `SettleRequest` wire type, declaration order. -/
def SettleRequestFields : List String :=
  ["x402Version", "paymentHeader", "paymentRequirements"]

/-- Field names of the official `VerifyResponse` wire type. -/
def VerifyResponseFields : List String :=
  ["isValid", "invalidReason"]

/-- Field names of the official `SettleResponse` wire type. -/
def SettleResponseFields : List String :=
  ["success", "error", "txHash", "networkId"]

/-- Field names of the official `PaymentResponseHeader` wire type. -/
def PaymentResponseHeaderFields : List String :=
  ["settlement"]

/-- Field names of the legacy `VerifyPaymentRequest` interface. -/
def VerifyPaymentRequestFields : List String :=
  ["signedTransaction", "expectedRecipient", "expectedAmount", "expectedNetwork"]

/-- Keys of the object literals returned on `verifyPayment` failure paths. -/
def verifyPaymentFailureKeys : List String :=
  ["valid", "error", "message"]

/-- Keys of the object literals returned on `settlePayment` failure paths. -/
def settlePaymentFailureKeys : List String :=
  ["settled", "error", "message"]

/-! ## Stellar utilities: transaction verification -/

/-- The fields of a Horizon transaction record that `verifyTransaction` reads. -/
structure TxRecord where
  successful : Bool
  source_account : String
deriving Repr, DecidableEq

/-- The fields of a Horizon operation record that `verifyTransaction` reads. -/
structure OpRecord where
  type : String
  asset_type : String
  «to» : String
  amount : String
deriving Repr, DecidableEq

/-- JavaScript truthiness of an optional string parameter: present and
non-empty. -/
def truthy : Option String → Bool
  | none => false
  | some s => !(s == "")

/-- The guard pattern `expected && actual !== expected` used for the sender,
recipient and amount checks: true when the expectation is provided (truthy)
and the actual value differs. -/
def mismatch (expected : Option String) (actual : String) : Bool :=
  match expected with
  | none => false
  | some s => (!(s == "")) && (!(actual == s))

/-- The predicate `op.type === "payment" && op.asset_type === "native"` used
to locate the payment operation. -/
def isNativePayment (op : OpRecord) : Bool :=
  op.type == "payment" && op.asset_type == "native"

/-- `verifyTransaction`, instrumented with the number of Horizon requests it
issues.  The transaction lookup and the operations lookup are oracles; a
`.error` oracle result models the corresponding Horizon call throwing, which
the surrounding `try`/`catch` maps to `false`. -/
def verifyTransactionRun (txLookup : Except String TxRecord)
    (opsLookup : Except String (List OpRecord))
    (expectedSender expectedRecipient expectedAmount : Option String) : Bool × Nat :=
  match txLookup with
  | .error _ => (false, 1)
  | .ok tx =>
    if !tx.successful then (false, 1)
    else if !truthy expectedSender && !truthy expectedRecipient && !truthy expectedAmount then
      (true, 1)
    else if mismatch expectedSender tx.source_account then (false, 1)
    else
      match opsLookup with
      | .error _ => (false, 2)
      | .ok ops =>
        match ops.find? isNativePayment with
        | none => (false, 2)
        | some op =>
          if mismatch expectedRecipient op.«to» then (false, 2)
          else if mismatch expectedAmount op.amount then (false, 2)
          else (true, 2)

/-- The boolean `verifyTransaction` returns. -/
def verifyTransaction (txLookup : Except String TxRecord)
    (opsLookup : Except String (List OpRecord))
    (expectedSender expectedRecipient expectedAmount : Option String) : Bool :=
  (verifyTransactionRun txLookup opsLookup expectedSender expectedRecipient expectedAmount).1

/-! ## Stellar utilities: waiting for a transaction (`waitForTransaction`) -/

/-- Outcome of one transaction lookup inside the polling loop: the record is
found (with its `successful` flag), the lookup throws a 404 (not found yet),
or it throws some other error. -/
inductive LookupResult where
  | found (successful : Bool)
  | notFound
  | otherError (msg : String)
deriving Repr, DecidableEq

/-- Number of loop iterations `while (Date.now() - startTime < timeoutMs)`
admits when each iteration advances elapsed time by exactly the 1000 ms sleep:
the attempt times are `0, 1000, 2000, …` and the loop body runs once for each
attempt time strictly below `timeoutMs`. -/
def waitAttempts (timeoutMs : Nat) : Nat :=
  (timeoutMs + 999) / 1000

/-- The polling loop of `waitForTransaction`, structurally recursive on the
number of remaining admissible attempts.  `oracle` gives the lookup outcome at
each elapsed time (in ms); the second component counts the Horizon lookups
issued.  When the admissible attempts are exhausted the loop condition fails
and the timeout error is thrown. -/
def waitLoop (oracle : Nat → LookupResult) (timeoutSeconds elapsed : Nat) :
    Nat → Except String Bool × Nat
  | 0 => (.error ("Transaction not found after " ++ toString timeoutSeconds ++ " seconds"), 0)
  | remaining + 1 =>
    match oracle elapsed with
    | .found successful => (.ok successful, 1)
    | .otherError msg => (.error msg, 1)
    | .notFound =>
      let rest := waitLoop oracle timeoutSeconds (elapsed + 1000) remaining
      (rest.1, rest.2 + 1)

/-- `waitForTransaction`, instrumented with the number of Horizon lookups:
polls the transaction once per second starting at elapsed time 0, returning
the transaction's `successful` flag as soon as it is found, rethrowing non-404
errors, and throwing the timeout error once the elapsed time reaches
`timeoutSeconds * 1000` ms. -/
def waitForTransactionRun (oracle : Nat → LookupResult) (timeoutSeconds : Nat) :
    Except String Bool × Nat :=
  waitLoop oracle timeoutSeconds 0 (waitAttempts (timeoutSeconds * 1000))

/-- The value `waitForTransaction` returns (or the error it throws). -/
def waitForTransaction (oracle : Nat → LookupResult) (timeoutSeconds : Nat) :
    Except String Bool :=
  (waitForTransactionRun oracle timeoutSeconds).1

/-! ## Stellar utilities: building and submitting a payment -/

/-- The part of a Horizon account record the transaction builder consumes. -/
structure AccountRecord where
  accountId : String
  sequence : Nat
deriving Repr, DecidableEq

/-- The transaction assembled by `buildPaymentTransaction`: source account
state, `BASE_FEE` (100 stroops), network passphrase, the single native-asset
payment operation, the optional memo, the 180-second timeout, and the
signatures attached so far. -/
structure BuiltTransaction where
  source : String
  sequence : Nat
  fee : Nat
  networkPassphrase : String
  destination : String
  amount : String
  memo : Option String
  timeoutSeconds : Nat
  signatures : List String
deriving Repr, DecidableEq

/-- `buildPaymentTransaction`, instrumented with its Horizon request count:
one `loadAccount` call (whose rejection propagates), then pure SDK
transaction assembly. -/
def buildPaymentTransactionRun (loadAccount : String → Except String AccountRecord)
    (sourcePublicKey destinationAddress amount network : String) (memo : Option String) :
    Except String BuiltTransaction × Nat :=
  match loadAccount sourcePublicKey with
  | .error e => (.error e, 1)
  | .ok acct =>
    (.ok ⟨acct.accountId, acct.sequence, 100, getNetworkPassphrase network,
      destinationAddress, amount, memo, 180, []⟩, 1)

/-- `signAndSubmitPayment`, instrumented with its Horizon request count:
build (one `loadAccount`), sign with the source keypair, submit (one
`submitTransaction`, whose failure is rethrown as an error). -/
def signAndSubmitPaymentRun (loadAccount : String → Except String AccountRecord)
    (submit : BuiltTransaction → Except String String)
    (sourcePublicKey destinationAddress amount network : String) (memo : Option String) :
    Except String String × Nat :=
  match buildPaymentTransactionRun loadAccount sourcePublicKey destinationAddress
      amount network memo with
  | (.error e, n) => (.error e, n)
  | (.ok tx, n) =>
    let signed : BuiltTransaction :=
      ⟨tx.source, tx.sequence, tx.fee, tx.networkPassphrase, tx.destination,
        tx.amount, tx.memo, tx.timeoutSeconds, tx.signatures ++ [sourcePublicKey]⟩
    match submit signed with
    | .ok hash => (.ok hash, n + 1)
    | .error e => (.error e, n + 1)

/-! ## Theorems -/

/-- C7: the two encodings of the network-to-passphrase contract agree — for
each of the three official identifiers, `getNetworkPassphrase` returns exactly
the passphrase recorded in `NETWORK_PASSPHRASES`. -/
theorem passphrase_table_agrees :
    NETWORK_PASSPHRASES.lookup STELLAR_MAINNET = some (getNetworkPassphrase STELLAR_MAINNET) ∧
    NETWORK_PASSPHRASES.lookup STELLAR_TESTNET = some (getNetworkPassphrase STELLAR_TESTNET) ∧
    NETWORK_PASSPHRASES.lookup STELLAR_FUTURENET = some (getNetworkPassphrase STELLAR_FUTURENET) := by
  decide

/-- C8: for every input string, the Horizon URL chosen by `getHorizonClient`
and the passphrase chosen by `getNetworkPassphrase` identify the same Stellar
network (both normalize the name identically and default unknown names to
testnet), and the URL always identifies some network. -/
theorem horizon_passphrase_consistent (network : String) :
    netOfHorizonUrl (getHorizonClient network).horizonUrl
      = netOfPassphrase (getNetworkPassphrase network) ∧
    (netOfHorizonUrl (getHorizonClient network).horizonUrl).isSome = true := by
  unfold getHorizonClient getNetworkPassphrase
  by_cases h1 : normalizeNetwork network = "mainnet"
  · simp [h1, netOfHorizonUrl, netOfPassphrase, NetworksPUBLIC, NetworksTESTNET,
      NetworksFUTURENET, NetworksSTANDALONE]
  · by_cases h2 : normalizeNetwork network = "testnet"
    · simp [h1, h2, netOfHorizonUrl, netOfPassphrase, NetworksPUBLIC, NetworksTESTNET,
        NetworksFUTURENET, NetworksSTANDALONE]
    · by_cases h3 : normalizeNetwork network = "futurenet"
      · simp [h1, h2, h3, netOfHorizonUrl, netOfPassphrase, NetworksPUBLIC, NetworksTESTNET,
          NetworksFUTURENET, NetworksSTANDALONE]
      · by_cases h4 : normalizeNetwork network = "local"
        · simp [h1, h2, h3, h4, netOfHorizonUrl, netOfPassphrase, NetworksPUBLIC,
            NetworksTESTNET, NetworksFUTURENET, NetworksSTANDALONE]
        · by_cases h5 : normalizeNetwork network = "standalone"
          · simp [h1, h2, h3, h4, h5, netOfHorizonUrl, netOfPassphrase, NetworksPUBLIC,
              NetworksTESTNET, NetworksFUTURENET, NetworksSTANDALONE]
          · simp [h1, h2, h3, h4, h5, netOfHorizonUrl, netOfPassphrase, NetworksPUBLIC,
              NetworksTESTNET, NetworksFUTURENET, NetworksSTANDALONE]

/-- C1 counterexample: the bodies actually POSTed by `verifyPayment` and
`settlePayment` are not `VerifyRequest`/`SettleRequest` values — at a concrete
input their key lists differ from the official wire-type field lists and lack
the mandatory `x402Version`/`paymentHeader` fields. -/
theorem verify_body_not_wire_request :
    (verifyPaymentBody "AAAA" "GDEST" "1000000" "stellar-testnet").map Prod.fst
        ≠ VerifyRequestFields ∧
    "x402Version" ∉ (verifyPaymentBody "AAAA" "GDEST" "1000000" "stellar-testnet").map Prod.fst ∧
    (settlePaymentBody "AAAA" "stellar-testnet").map Prod.fst ≠ SettleRequestFields ∧
    "paymentHeader" ∉ (settlePaymentBody "AAAA" "stellar-testnet").map Prod.fst := by
  decide

/-- C1 amended: for every call, `verifyPayment` POSTs exactly the legacy
`VerifyPaymentRequest` fields (`signedTransaction`, `expectedRecipient`,
`expectedAmount`, `expectedNetwork`) and `settlePayment` POSTs
`signedTransaction` and `expectedNetwork`, each function performing its single
fetch on that body. -/
theorem client_bodies_are_legacy (f : FetchFn VerifyPaymentResponse)
    (g : FetchFn SettlePaymentResponse) (url tx rec amt net : String) :
    verifyPayment f url tx rec amt net
      = handleVerifyResponse (f url (verifyPaymentBody tx rec amt net)) ∧
    (verifyPaymentBody tx rec amt net).map Prod.fst = VerifyPaymentRequestFields ∧
    settlePayment g url tx net
      = handleSettleResponse (g url (settlePaymentBody tx net)) ∧
    (settlePaymentBody tx net).map Prod.fst = ["signedTransaction", "expectedNetwork"] :=
  ⟨rfl, rfl, rfl, rfl⟩

/-- C2 counterexample: the failure results carry the legacy flags, not the
protocol ones — at a concrete failing input `verifyPayment` returns the
`valid`-flagged legacy record, and neither failure literal has an `isValid`
or `success` key. -/
theorem failure_result_uses_legacy_flags :
    verifyPayment (fun _ _ => .throws "connection refused") "u" "t" "r" "a" "n"
      = ⟨false, some "Network error", some "connection refused"⟩ ∧
    "isValid" ∉ verifyPaymentFailureKeys ∧
    settlePayment (fun _ _ => .response false 500
        ⟨true, none, none, none, none, none, none, none, none⟩) "u" "t" "n"
      = ⟨false, none, none, none, none, none, none, some "Settlement failed",
          some "HTTP 500"⟩ ∧
    "success" ∉ settlePaymentFailureKeys := by
  decide

/-- C2 amended: for every fetch failure (rejection or non-ok response) the
client functions recover by returning a result whose legacy validity flag is
false (`valid = false` / `settled = false`) together with an error string;
they never throw (their embeddings are total, unlike the `Simple` wrappers). -/
theorem client_failure_recovery (f : FetchFn VerifyPaymentResponse)
    (g : FetchFn SettlePaymentResponse) (url tx rec amt net : String) :
    ((f url (verifyPaymentBody tx rec amt net)).isFailure = true →
      (verifyPayment f url tx rec amt net).valid = false ∧
      (verifyPayment f url tx rec amt net).error.isSome = true) ∧
    ((g url (settlePaymentBody tx net)).isFailure = true →
      (settlePayment g url tx net).settled = false ∧
      (settlePayment g url tx net).error.isSome = true) := by
  constructor
  · intro h
    cases hf : f url (verifyPaymentBody tx rec amt net) with
    | throws msg => simp [verifyPayment, handleVerifyResponse, hf]
    | response ok status data =>
      rw [hf] at h
      simp [FetchOutcome.isFailure] at h
      simp [verifyPayment, handleVerifyResponse, hf, h]
  · intro h
    cases hg : g url (settlePaymentBody tx net) with
    | throws msg => simp [settlePayment, handleSettleResponse, hg]
    | response ok status data =>
      rw [hg] at h
      simp [FetchOutcome.isFailure] at h
      simp [settlePayment, handleSettleResponse, hg, h]

/-- C2 witness: the recovery theorem applied to a concrete rejecting fetch. -/
theorem client_failure_recovery_witness :
    (verifyPayment (fun _ _ => .throws "refused") "u" "t" "r" "a" "n").valid = false ∧
    (verifyPayment (fun _ _ => .throws "refused") "u" "t" "r" "a" "n").error.isSome = true :=
  (client_failure_recovery (fun _ _ => .throws "refused")
    (fun _ _ => .throws "refused") "u" "t" "r" "a" "n").1 rfl

/-- C3 counterexample: at a concrete settlement result, the object
`createPaymentResponse` builds is not a `PaymentResponseHeader` — its key list
differs and it has no `settlement` field. -/
theorem createPaymentResponse_not_header :
    (createPaymentResponse ⟨true, some "abc123", some "1000000", some "GDEST",
        some "stellar-testnet", some "2024-01-01", some "success", none, none⟩).map Prod.fst
      ≠ PaymentResponseHeaderFields ∧
    "settlement" ∉ (createPaymentResponse ⟨true, some "abc123", some "1000000", some "GDEST",
        some "stellar-testnet", some "2024-01-01", some "success", none, none⟩).map Prod.fst := by
  decide

/-- C3 amended: for every settlement result, `createPaymentResponse` returns a
record with exactly the fields `transactionHash`, `amount`, `currency`
(always `"XLM"`), `recipient`, `network`, `timestamp`, `status`, copied from
the legacy settlement result. -/
theorem createPaymentResponse_shape (s : SettlePaymentResponse) :
    (createPaymentResponse s).map Prod.fst
      = ["transactionHash", "amount", "currency", "recipient", "network",
         "timestamp", "status"] ∧
    (createPaymentResponse s).lookup "currency" = some (some "XLM") ∧
    (createPaymentResponse s).lookup "transactionHash" = some s.transactionHash ∧
    (createPaymentResponse s).lookup "amount" = some s.amount ∧
    (createPaymentResponse s).lookup "recipient" = some s.recipient ∧
    (createPaymentResponse s).lookup "network" = some s.network ∧
    (createPaymentResponse s).lookup "timestamp" = some s.timestamp ∧
    (createPaymentResponse s).lookup "status" = some s.status :=
  ⟨rfl, rfl, rfl, rfl, rfl, rfl, rfl, rfl⟩

/-- C9: the `Simple` wrappers throw exactly when the facilitator base URL is
empty, and on every non-empty base URL they return exactly the result of the
underlying client function on the URL with `/verify` or `/settle` appended
(the other facilitator-client entry points are total and cannot throw). -/
theorem simple_wrappers_throw_iff (f : FetchFn VerifyPaymentResponse)
    (g : FetchFn SettlePaymentResponse) (url tx rec amt net : String) :
    (exceptThrows (verifyPaymentSimple f url tx rec amt net) = true ↔ url = "") ∧
    (exceptThrows (settlePaymentSimple g url tx net) = true ↔ url = "") ∧
    (url ≠ "" →
      verifyPaymentSimple f url tx rec amt net
        = .ok (verifyPayment f (url ++ "/verify") tx rec amt net)) ∧
    (url ≠ "" →
      settlePaymentSimple g url tx net
        = .ok (settlePayment g (url ++ "/settle") tx net)) := by
  by_cases h : url = "" <;>
    simp [verifyPaymentSimple, settlePaymentSimple, exceptThrows, h]

/-- C9 witness: the wrapper theorem applied at a non-empty and an empty URL. -/
theorem simple_wrappers_throw_iff_witness :
    verifyPaymentSimple (fun _ _ => .throws "refused") "https://fac" "t" "r" "a" "n"
      = .ok (verifyPayment (fun _ _ => .throws "refused") "https://fac/verify" "t" "r" "a" "n") ∧
    exceptThrows (settlePaymentSimple (fun _ _ => .throws "refused") "" "t" "n") = true :=
  ⟨(simple_wrappers_throw_iff (fun _ _ => .throws "refused")
      (fun _ _ => .throws "refused") "https://fac" "t" "r" "a" "n").2.2.1 (by decide),
   ((simple_wrappers_throw_iff (fun _ _ => .throws "refused")
      (fun _ _ => .throws "refused") "" "t" "r" "a" "n").2.1).mpr rfl⟩

/-- If the first `n` polled lookups are 404 and the lookup at attempt `n`
finds the transaction, the polling loop returns its `successful` flag after
`n + 1` lookups. -/
theorem waitLoop_found (oracle : Nat → LookupResult) (ts : Nat) :
    ∀ (n : Nat), ∀ (elapsed remaining : Nat), n < remaining →
    (∀ k, k < n → oracle (elapsed + 1000 * k) = .notFound) →
    ∀ b, oracle (elapsed + 1000 * n) = .found b →
    waitLoop oracle ts elapsed remaining = (.ok b, n + 1) := by
  intro n
  induction n with
  | zero =>
    intro elapsed remaining hlt _ b hb
    obtain ⟨r, rfl⟩ : ∃ r, remaining = r + 1 := ⟨remaining - 1, by omega⟩
    simp only [Nat.mul_zero, Nat.add_zero] at hb
    simp [waitLoop, hb]
  | succ n ih =>
    intro elapsed remaining hlt hnf b hb
    obtain ⟨r, rfl⟩ : ∃ r, remaining = r + 1 := ⟨remaining - 1, by omega⟩
    have h0 : oracle elapsed = .notFound := by
      have := hnf 0 (by omega)
      simpa using this
    have step : waitLoop oracle ts (elapsed + 1000) r = (.ok b, n + 1) := by
      refine ih (elapsed + 1000) r (by omega) ?_ b ?_
      · intro k hk
        have := hnf (k + 1) (by omega)
        have harith : elapsed + 1000 * (k + 1) = elapsed + 1000 + 1000 * k := by ring
        rwa [harith] at this
      · have harith : elapsed + 1000 * (n + 1) = elapsed + 1000 + 1000 * n := by ring
        rwa [harith] at hb
    simp [waitLoop, h0, step]

/-- If every admissible polled lookup is 404, the polling loop throws the
timeout error after exhausting its attempts. -/
theorem waitLoop_timeout (oracle : Nat → LookupResult) (ts : Nat) :
    ∀ (remaining elapsed : Nat),
    (∀ k, k < remaining → oracle (elapsed + 1000 * k) = .notFound) →
    waitLoop oracle ts elapsed remaining
      = (.error ("Transaction not found after " ++ toString ts ++ " seconds"), remaining) := by
  intro remaining
  induction remaining with
  | zero => intro elapsed _; simp [waitLoop]
  | succ r ih =>
    intro elapsed hnf
    have h0 : oracle elapsed = .notFound := by
      have := hnf 0 (by omega)
      simpa using this
    have step := ih (elapsed + 1000) (by
      intro k hk
      have := hnf (k + 1) (by omega)
      have harith : elapsed + 1000 * (k + 1) = elapsed + 1000 + 1000 * k := by ring
      rwa [harith] at this)
    simp [waitLoop, h0, step]

/-- A timeout of `ts` seconds admits exactly `ts` one-per-second attempts. -/
theorem waitAttempts_of_seconds (ts : Nat) : waitAttempts (ts * 1000) = ts := by
  unfold waitAttempts
  omega

/-- C5: `waitForTransaction` is a fixed polling loop — attempts are spaced
exactly 1000 ms apart starting at elapsed time 0; it returns the
transaction's `successful` flag at the first attempt whose lookup finds it
(performing one lookup per attempt), and throws the timeout error once the
elapsed time reaches `timeoutSeconds * 1000` ms with every lookup still 404. -/
theorem waitForTransaction_poll_spec (oracle : Nat → LookupResult) (timeoutSeconds : Nat) :
    (∀ n b, (∀ k, k < n → oracle (1000 * k) = .notFound) →
      oracle (1000 * n) = .found b → 1000 * n < timeoutSeconds * 1000 →
      waitForTransactionRun oracle timeoutSeconds = (.ok b, n + 1)) ∧
    ((∀ k, 1000 * k < timeoutSeconds * 1000 → oracle (1000 * k) = .notFound) →
      waitForTransactionRun oracle timeoutSeconds
        = (.error ("Transaction not found after " ++ toString timeoutSeconds ++ " seconds"),
            timeoutSeconds)) := by
  constructor
  · intro n b hnf hb hlt
    unfold waitForTransactionRun
    rw [waitAttempts_of_seconds]
    refine waitLoop_found oracle timeoutSeconds n 0 timeoutSeconds (by omega) ?_ b ?_
    · intro k hk
      simpa using hnf k hk
    · simpa using hb
  · intro hnf
    unfold waitForTransactionRun
    rw [waitAttempts_of_seconds]
    refine waitLoop_timeout oracle timeoutSeconds timeoutSeconds 0 ?_
    intro k hk
    simpa using hnf k (by omega)

/-- C5 witness: the polling theorem applied to a lookup oracle that finds the
transaction at elapsed time 2000 ms, with the default 30-second timeout. -/
theorem waitForTransaction_poll_spec_witness :
    waitForTransactionRun (fun t => if t < 2000 then .notFound else .found true) 30
      = (.ok true, 3) :=
  (waitForTransaction_poll_spec (fun t => if t < 2000 then .notFound else .found true) 30).1
    2 true
    (by intro k hk; interval_cases k <;> rfl)
    (by norm_num)
    (by norm_num)

/-- C4 counterexample: `waitForTransaction` is an exported function that can
issue three or more network requests in one invocation — with a transaction
that appears at elapsed time 3000 ms it performs four lookups. -/
theorem waitForTransaction_three_calls :
    (waitForTransactionRun (fun t => if t < 3000 then .notFound else .found true) 30).2 = 4 ∧
    (waitForTransactionRun (fun t => if t < 3000 then .notFound else .found true) 30).1
      = .ok true := by
  have h : waitForTransactionRun (fun t => if t < 3000 then .notFound else .found true) 30
      = (.ok true, 4) := by
    unfold waitForTransactionRun
    rw [waitAttempts_of_seconds]
    refine waitLoop_found _ 30 3 0 30 (by omega) ?_ true ?_
    · intro k hk
      interval_cases k <;> rfl
    · rfl
  rw [h]
  exact ⟨rfl, rfl⟩

/-- The polling loop never issues more lookups than it has attempts left. -/
theorem waitLoop_count_le (oracle : Nat → LookupResult) (ts : Nat) :
    ∀ (remaining elapsed : Nat), (waitLoop oracle ts elapsed remaining).2 ≤ remaining := by
  intro remaining
  induction remaining with
  | zero => intro elapsed; simp [waitLoop]
  | succ r ih =>
    intro elapsed
    cases h : oracle elapsed <;> simp [waitLoop, h]
    exact ih (elapsed + 1000)

/-- `verifyTransaction` performs at most two Horizon requests. -/
theorem verifyTransactionRun_count (txL : Except String TxRecord)
    (opsL : Except String (List OpRecord)) (es er ea : Option String) :
    (verifyTransactionRun txL opsL es er ea).2 ≤ 2 := by
  unfold verifyTransactionRun
  repeat' split
  all_goals simp

/-- `buildPaymentTransaction` performs exactly one Horizon request. -/
theorem buildPaymentTransactionRun_count
    (loadAccount : String → Except String AccountRecord)
    (src dst amt net : String) (memo : Option String) :
    (buildPaymentTransactionRun loadAccount src dst amt net memo).2 = 1 := by
  unfold buildPaymentTransactionRun
  cases h : loadAccount src <;> simp [h]

/-- `signAndSubmitPayment` performs at most two Horizon requests. -/
theorem signAndSubmitPaymentRun_count
    (loadAccount : String → Except String AccountRecord)
    (submit : BuiltTransaction → Except String String)
    (src dst amt net : String) (memo : Option String) :
    (signAndSubmitPaymentRun loadAccount submit src dst amt net memo).2 ≤ 2 := by
  unfold signAndSubmitPaymentRun
  rcases h : buildPaymentTransactionRun loadAccount src dst amt net memo with ⟨res, n⟩
  have hn : n = 1 := by
    have h2 := buildPaymentTransactionRun_count loadAccount src dst amt net memo
    rw [h] at h2
    exact h2
  rcases res with e | tx
  · simp [hn]
  · cases hs : submit ⟨tx.source, tx.sequence, tx.fee, tx.networkPassphrase, tx.destination,
        tx.amount, tx.memo, tx.timeoutSeconds, tx.signatures ++ [src]⟩ <;>
      simp [hs, hn]

/-- C4 amended: every exported function except `waitForTransaction` performs
at most two network calls per invocation; `waitForTransaction` performs one
lookup per polling attempt, up to `timeoutSeconds` lookups. -/
theorem network_call_counts (txL : Except String TxRecord)
    (opsL : Except String (List OpRecord)) (es er ea : Option String)
    (loadAccount : String → Except String AccountRecord)
    (submit : BuiltTransaction → Except String String)
    (src dst amt net : String) (memo : Option String)
    (oracle : Nat → LookupResult) (ts : Nat) :
    (verifyTransactionRun txL opsL es er ea).2 ≤ 2 ∧
    (buildPaymentTransactionRun loadAccount src dst amt net memo).2 ≤ 1 ∧
    (signAndSubmitPaymentRun loadAccount submit src dst amt net memo).2 ≤ 2 ∧
    (waitForTransactionRun oracle ts).2 ≤ ts := by
  refine ⟨verifyTransactionRun_count txL opsL es er ea,
    Nat.le_of_eq (buildPaymentTransactionRun_count loadAccount src dst amt net memo),
    signAndSubmitPaymentRun_count loadAccount submit src dst amt net memo, ?_⟩
  have h := waitLoop_count_le oracle ts (waitAttempts (ts * 1000)) 0
  unfold waitForTransactionRun
  exact h.trans (Nat.le_of_eq (waitAttempts_of_seconds ts))

/-- C6 counterexample: with no expectations provided, a successful transaction
that contains no native payment operation makes `verifyTransaction` return
true — contradicting the claim that the absence of a native payment operation
always yields false. -/
theorem verifyTransaction_true_without_payment_op :
    verifyTransaction (.ok ⟨true, "GSOURCE"⟩)
        (.ok [⟨"create_account", "", "GDEST", "100"⟩]) none none none = true ∧
    List.find? isNativePayment [(⟨"create_account", "", "GDEST", "100"⟩ : OpRecord)]
      = none := by
  decide

/-- C6 amended: `verifyTransaction` never throws and returns true exactly when
the lookup succeeds with a successful transaction and either no expectation is
provided (truthy), or the provided sender matches and the operations list
holds a native payment operation matching every provided recipient and amount
expectation; every failure, mismatch or missing payment operation (when some
expectation is provided) yields false. -/
theorem verifyTransaction_characterization (txL : Except String TxRecord)
    (opsL : Except String (List OpRecord)) (es er ea : Option String) :
    verifyTransaction txL opsL es er ea = true ↔
      ∃ tx, txL = .ok tx ∧ tx.successful = true ∧
        ((truthy es = false ∧ truthy er = false ∧ truthy ea = false) ∨
         (mismatch es tx.source_account = false ∧
          ∃ ops op, opsL = .ok ops ∧ ops.find? isNativePayment = some op ∧
            mismatch er op.«to» = false ∧ mismatch ea op.amount = false)) := by
  unfold verifyTransaction verifyTransactionRun
  rcases txL with e | tx
  · simp
  · repeat' split
    all_goals simp_all [-List.find?_eq_none]

end StellarX402
